import Mathlib

/-!
Shallow embedding of the grpcpool connection pool.

The main model follows `src/grpcpool.go` (the three-tier variant with
`initSize`/`idleSize`/`peakSize`, a background reclamation loop and `Close`).
The namespace `V1` embeds the legacy single-size variant found in
`src/unnamed/part_000` (second file), whose `Put` reports `CONN_INPOOL`.

Modelling conventions:
- `int32` counters are modelled as `Int` (the pool's counters stay far from
  the 2^31 boundary in every scenario considered here, and the code performs
  no wrap-relevant arithmetic on them).
- The buffered channel `clients` is a `List GRPCConn` together with its fixed
  capacity `clientsCap`: a non-blocking receive takes the head when the list
  is non-empty, a non-blocking send appends when `length < clientsCap`.
  `Close` sets the channel to `nil`; a receive or send on a nil channel is
  never ready inside a `select`, so a nil channel behaves exactly like the
  empty list in both `get` and `put`, and we represent it by `[]`.
- `grpc.DialContext` is an external collaborator: its outcome is passed to
  `get` as a `DialResult` (a fresh transport handle on success, a gRPC
  status classification on failure).
- Wall-clock time enters as an explicit `now : Int` (Unix seconds, the
  granularity at which the code compares times).
- Connections are values; the opaque `client : Nat` field stands for the
  `*grpc.ClientConn` pointer identity.  Mutation of a caller-held
  connection (`conn.Close()`, `conn.utime = ...`) is reflected in the
  `conn` component of the operation's result.
- The metric observer is a passive sink with no influence on control flow
  (the code guards every call with `metricObserver != nil`), so it is not
  modelled.
-/

/-! Error codes from the const block of `src/grpcpool.go`. -/

def SUCCESS : Nat := 0

def POOL_EMPTY : Nat := 1

def POOL_FULL : Nat := 2

def POOL_IDLE : Nat := 3

def POOL_CLOSED : Nat := 4

def GRPC_ERROR : Nat := 5

def CONN_CLOSED : Nat := 6

def CONN_UNAVAILABLE : Nat := 7

def CONN_DEADLINE_EXCEEDED : Nat := 8

/-- The gRPC status classifications that `get` distinguishes on a failed
dial (`codes.Unavailable`, `codes.DeadlineExceeded`, anything else). -/
inductive StatusCode where
  | unavailable
  | deadlineExceeded
  | other
deriving DecidableEq, Repr

/-- Outcome of the external `grpc.DialContext` collaborator: success hands
back a fresh transport handle, failure carries the status classification. -/
inductive DialResult where
  | ok (handle : Nat)
  | fail (code : StatusCode)
deriving DecidableEq, Repr

/-- Embeds `GRPCConn` from `src/grpcpool.go`: endpoint, closed flag, opaque
transport handle (pointer identity of `client`), last-used time in Unix
seconds (`utime`). -/
structure GRPCConn where
  endpoint : String
  closed : Bool
  client : Nat
  utime : Int
deriving DecidableEq, Repr

/-- Embeds `GRPCConn.Close`: idempotent; sets the closed flag (the underlying
transport close is external). -/
def GRPCConn.Close (conn : GRPCConn) : GRPCConn :=
  if conn.closed then conn else { conn with closed := true }

/-- Embeds `GRPCConn.IsClosed`. -/
def GRPCConn.IsClosed (conn : GRPCConn) : Bool :=
  conn.closed

/-- Embeds `GRPCPool` from `src/grpcpool.go`.  `clientsCap` is the capacity the
channel was created with (`make(chan *GRPCConn, peakSize)`); `clients` is
the current buffer content, head = next to be received. -/
structure GRPCPool where
  endpoint : String
  peakSize : Int
  idleSize : Int
  initSize : Int
  used : Int
  idle : Int
  idleTimeout : Int
  peakTimeout : Int
  closed : Bool
  accessTime : Int
  clients : List GRPCConn
  clientsCap : Int
deriving DecidableEq, Repr

/-- Embeds `NewGRPCPool` from `src/grpcpool.go` lines 139-179 (identically
`src/unnamed/part_000` lines 120-155): clamp `initSize` up to 1, `idleSize`
up to `initSize`, `peakSize` up to `idleSize`; counters start at zero; the
channel is allocated with capacity equal to the clamped `peakSize`;
`idleTimeout` defaults to 10 seconds and `peakTimeout` to 2. -/
def NewGRPCPool (endpoint : String) (initSize idleSize peakSize : Int) : GRPCPool :=
  let initS : Int := if initSize < 1 then 1 else initSize
  let idleS : Int := if idleSize < initS then initS else idleSize
  let peakS : Int := if peakSize < idleS then idleS else peakSize
  { endpoint := endpoint
    peakSize := peakS
    idleSize := idleS
    initSize := initS
    used := 0
    idle := 0
    idleTimeout := 10
    peakTimeout := 2
    closed := false
    accessTime := 0
    clients := []
    clientsCap := peakS }

/-- Accessor `GetUsed`. -/
def GRPCPool.GetUsed (pool : GRPCPool) : Int :=
  pool.used

/-- Accessor `GetIdle`. -/
def GRPCPool.GetIdle (pool : GRPCPool) : Int :=
  pool.idle

/-- Accessor `GetInitSize`. -/
def GRPCPool.GetInitSize (pool : GRPCPool) : Int :=
  pool.initSize

/-- Accessor `GetIdleSize`. -/
def GRPCPool.GetIdleSize (pool : GRPCPool) : Int :=
  pool.idleSize

/-- Accessor `GetPeakSize`. -/
def GRPCPool.GetPeakSize (pool : GRPCPool) : Int :=
  pool.peakSize

/-- Setter `SetIdleTimeout`: clamp up to 1. -/
def GRPCPool.SetIdleTimeout (pool : GRPCPool) (timeout : Int) : GRPCPool :=
  if timeout < 1 then { pool with idleTimeout := 1 } else { pool with idleTimeout := timeout }

/-- Setter `SetPeakTimeout`: clamp up to 1. -/
def GRPCPool.SetPeakTimeout (pool : GRPCPool) (timeout : Int) : GRPCPool :=
  if timeout < 1 then { pool with peakTimeout := 1 } else { pool with peakTimeout := timeout }

/-- Result of `get`: updated pool, optional connection, error code, whether
the returned `error` value was non-nil, and whether `grpc.DialContext` was
invoked during the call. -/
structure GetResult where
  pool : GRPCPool
  conn : Option GRPCConn
  errcode : Nat
  hasError : Bool
  dialed : Bool
deriving Repr

/-- Embeds `get` from `src/grpcpool.go` lines 263-327.  Steps: store `accessTime`;
increment `used`; non-blocking receive from `clients` (success: decrement
`idle`, return the connection); on empty queue: if `doNotNew` return a nil
connection with `SUCCESS`; if the incremented `used` exceeds `peakSize`,
decrement `used` back and return `POOL_EMPTY`; otherwise dial — on failure
classify the status, decrement `used` back and return the classified code;
on success wrap a fresh connection (`closed = false`, `utime = now`). -/
def GRPCPool.get (pool : GRPCPool) (doNotNew : Bool) (dial : DialResult) (now : Int) : GetResult :=
  let used1 := pool.used + 1
  let p1 := { pool with accessTime := now, used := used1 }
  match p1.clients with
  | conn :: rest =>
    { pool := { p1 with clients := rest, idle := p1.idle - 1 }
      conn := some conn, errcode := SUCCESS, hasError := false, dialed := false }
  | [] =>
    if doNotNew then
      { pool := p1, conn := none, errcode := SUCCESS, hasError := false, dialed := false }
    else if used1 > p1.peakSize then
      { pool := { p1 with used := used1 - 1 }
        conn := none, errcode := POOL_EMPTY, hasError := true, dialed := false }
    else
      match dial with
      | DialResult.fail code =>
        let errcode :=
          if code = StatusCode.unavailable then CONN_UNAVAILABLE
          else if code = StatusCode.deadlineExceeded then CONN_DEADLINE_EXCEEDED
          else GRPC_ERROR
        { pool := { p1 with used := used1 - 1 }
          conn := none, errcode := errcode, hasError := true, dialed := true }
      | DialResult.ok handle =>
        { pool := p1
          conn := some { endpoint := pool.endpoint, closed := false, client := handle, utime := now }
          errcode := SUCCESS, hasError := false, dialed := true }

/-- Public `Get`: `get` with `doNotNew = false`. -/
def GRPCPool.Get (pool : GRPCPool) (dial : DialResult) (now : Int) : GetResult :=
  pool.get false dial now

/-- Result of `put`: updated pool, the caller's connection after the call
(reflecting `conn.Close()` / `conn.utime` mutations), error code, and
whether the returned `error` value was non-nil. -/
structure PutResult where
  pool : GRPCPool
  conn : GRPCConn
  errcode : Nat
  hasError : Bool
deriving Repr

/-- Embeds `put` from `src/grpcpool.go` lines 335-406.  Steps: store `accessTime`;
decrement `used`; if the pool is closed, close the connection and return
`SUCCESS`; if the connection is closed, return `CONN_CLOSED`; otherwise
increment `idle`, read the old `utime`, stamp `utime = now` unless
`doNotTouch`; if the incremented idle count exceeds `initSize` and
`now > utime`: evict with `POOL_IDLE` when the idle time exceeds
`idleTimeout`, or — when the idle count also exceeds `idleSize` — already
when it exceeds `peakTimeout`; otherwise non-blocking send to `clients`
(on a full buffer: close the connection, decrement `idle`, `POOL_FULL`). -/
def GRPCPool.put (pool : GRPCPool) (conn : GRPCConn) (doNotTouch : Bool) (now : Int) : PutResult :=
  let p1 := { pool with accessTime := now, used := pool.used - 1 }
  if p1.closed then
    { pool := p1, conn := conn.Close, errcode := SUCCESS, hasError := false }
  else if conn.IsClosed then
    { pool := p1, conn := conn, errcode := CONN_CLOSED, hasError := false }
  else
    let idle1 := p1.idle + 1
    let p2 := { p1 with idle := idle1 }
    let utime := conn.utime
    let conn2 := if doNotTouch then conn else { conn with utime := now }
    if idle1 > p2.initSize ∧ now > utime ∧ now - utime > p2.idleTimeout then
      { pool := { p2 with idle := p2.idle - 1 }, conn := conn2.Close
        errcode := POOL_IDLE, hasError := false }
    else if idle1 > p2.initSize ∧ now > utime ∧ idle1 > p2.idleSize ∧ now - utime > p2.peakTimeout then
      { pool := { p2 with idle := p2.idle - 1 }, conn := conn2.Close
        errcode := POOL_IDLE, hasError := false }
    else if (p2.clients.length : Int) < p2.clientsCap then
      { pool := { p2 with clients := p2.clients ++ [conn2] }, conn := conn2
        errcode := SUCCESS, hasError := false }
    else
      { pool := { p2 with idle := p2.idle - 1 }, conn := conn2.Close
        errcode := POOL_FULL, hasError := true }

/-- Public `Put`: `put` with `doNotTouch = false`. -/
def GRPCPool.Put (pool : GRPCPool) (conn : GRPCConn) (now : Int) : PutResult :=
  pool.put conn false now

/-- Embeds `Close` from `src/grpcpool.go` lines 224-251: compare-and-swap the
closed flag from 0 to 1; on success drain the channel closing every queued
connection (the loop performs no `subIdle`), close the channel and set the
field to `nil` (represented as `[]`).  The counters `used` and `idle` are
not modified. -/
def GRPCPool.Close (pool : GRPCPool) : GRPCPool :=
  if pool.closed then pool
  else { pool with closed := true, clients := [] }

/-- One burst of the reclamation loop (`src/grpcpool.go` lines 421-430):
up to `fuel` iterations of internal `get` with `doNotNew = true` followed by
internal `put` with `doNotTouch = true`, stopping when the `get` yields no
connection or the `put` does not return `POOL_IDLE`.  The second component
counts how many times `grpc.DialContext` was invoked.  The dial argument
passed to `get` is immaterial under `doNotNew = true`; `DialResult.ok 0`
stands for the `context.Background()` call site. -/
def burstLoop (pool : GRPCPool) (now : Int) : Nat → GRPCPool × Nat
  | 0 => (pool, 0)
  | fuel + 1 =>
    let r := pool.get true (DialResult.ok 0) now
    let d0 : Nat := if r.dialed then 1 else 0
    match r.conn with
    | none => (r.pool, d0)
    | some conn =>
      let p := r.pool.put conn true now
      if p.errcode = POOL_IDLE then
        let rest := burstLoop p.pool now fuel
        (rest.1, d0 + rest.2)
      else
        (p.pool, d0)

/-- One tick of `releaseIdleCoroutine` (`src/grpcpool.go` lines 408-435)
after the 1-second sleep: if the pool is closed the loop exits; otherwise,
when the idle count exceeds `initSize` and the used count is less than the
idle count, run a burst bounded by the idle-count snapshot. -/
def releaseIdleTick (pool : GRPCPool) (now : Int) : GRPCPool :=
  if pool.closed then pool
  else if pool.idle > pool.initSize ∧ pool.used < pool.idle then
    (burstLoop pool now pool.idle.toNat).1
  else pool

namespace V1

/-! Legacy single-size variant (`src/unnamed/part_000`, second file):
its const block renumbers the codes and adds `CONN_INPOOL`. -/

def SUCCESS : Nat := 0

def POOL_EMPTY : Nat := 1

def POOL_FULL : Nat := 2

def GRPC_ERROR : Nat := 3

def CONN_CLOSED : Nat := 4

def CONN_INPOOL : Nat := 5

def CONN_UNAVAILABLE : Nat := 6

def CONN_DEADLINE_EXCEEDED : Nat := 7

/-- Legacy `GRPCConn`: endpoint, closed flag, in-pool flag, opaque
transport handle. -/
structure GRPCConn where
  endpoint : String
  closed : Bool
  inpool : Bool
  client : Nat
deriving DecidableEq, Repr

/-- Legacy `GRPCConn.Close`: idempotent closed-flag set. -/
def GRPCConn.Close (conn : GRPCConn) : GRPCConn :=
  if conn.closed then conn else { conn with closed := true }

/-- Legacy `GRPCPool`: one `size` tier, `used` counter, channel buffer with
its capacity (`make(chan *GRPCConn, size)` uses the unclamped argument). -/
structure GRPCPool where
  endpoint : String
  size : Int
  used : Int
  clients : List GRPCConn
  clientsCap : Int
deriving DecidableEq, Repr

/-- Result of the legacy `Put`: updated pool, the caller's connection after
the call, error code, and whether the returned `error` was non-nil. -/
structure PutResult where
  pool : GRPCPool
  conn : GRPCConn
  errcode : Nat
  hasError : Bool
deriving Repr

/-- Legacy `Put` (`src/unnamed/part_000` lines 536-558): if the connection
is flagged in-pool, return `CONN_INPOOL` at once — before the `used`
decrement; otherwise decrement `used`; a closed connection is not
re-enqueued (`CONN_CLOSED`); otherwise non-blocking send (marking `inpool`),
and on a full buffer clear `inpool`, close the connection, `POOL_FULL`. -/
def GRPCPool.Put (pool : GRPCPool) (conn : GRPCConn) : PutResult :=
  if conn.inpool then
    { pool := pool, conn := conn, errcode := CONN_INPOOL, hasError := true }
  else
    let p1 := { pool with used := pool.used - 1 }
    if conn.closed then
      { pool := p1, conn := conn, errcode := CONN_CLOSED, hasError := false }
    else if (p1.clients.length : Int) < p1.clientsCap then
      { pool := { p1 with clients := p1.clients ++ [{ conn with inpool := true }] }
        conn := { conn with inpool := true }, errcode := SUCCESS, hasError := false }
    else
      { pool := p1, conn := GRPCConn.Close { conn with inpool := false }
        errcode := POOL_FULL, hasError := true }

end V1

/-- Scenario harness: the pool state after `n` sequential public `Get`
calls, every dial succeeding (handle `h`), with no intervening `Put`. -/
def iterGetOk (h : Nat) (now : Int) : GRPCPool → Nat → GRPCPool
  | pool, 0 => pool
  | pool, n + 1 => iterGetOk h now (pool.Get (DialResult.ok h) now).pool n

/-- Scenario harness: `true` when each of `n` sequential public `Get`
calls (every dial succeeding) returns a non-nil connection with `SUCCESS`,
obtained via a dial. -/
def getsOkN (h : Nat) (now : Int) : GRPCPool → Nat → Bool
  | _, 0 => true
  | pool, n + 1 =>
    let r := pool.Get (DialResult.ok h) now
    r.conn.isSome && (r.errcode == SUCCESS) && r.dialed && getsOkN h now r.pool n

/-! Shared helper lemmas. -/

theorem newPool_fields (e : String) (i s p : Int) :
    1 ≤ (NewGRPCPool e i s p).initSize ∧
    (NewGRPCPool e i s p).initSize ≤ (NewGRPCPool e i s p).idleSize ∧
    (NewGRPCPool e i s p).idleSize ≤ (NewGRPCPool e i s p).peakSize ∧
    i ≤ (NewGRPCPool e i s p).initSize ∧
    s ≤ (NewGRPCPool e i s p).idleSize ∧
    p ≤ (NewGRPCPool e i s p).peakSize ∧
    (NewGRPCPool e i s p).used = 0 ∧
    (NewGRPCPool e i s p).idle = 0 ∧
    (NewGRPCPool e i s p).clients = [] ∧
    (NewGRPCPool e i s p).clientsCap = (NewGRPCPool e i s p).peakSize := by
  unfold NewGRPCPool
  dsimp only
  split_ifs <;> simp_all <;> omega

/-- Claim C8: for every endpoint and all initSize, idleSize, peakSize
arguments (including zero or negative values), the pool returned by
NewGRPCPool satisfies 1 ≤ initSize ≤ idleSize ≤ peakSize (violations clamped
upward, so no argument is ever reduced), has used = 0 and idle = 0, and its
idle queue has capacity equal to the clamped peakSize. -/
theorem newGRPCPool_clamps_and_zeroes (e : String) (i s p : Int) :
    1 ≤ (NewGRPCPool e i s p).initSize ∧
    (NewGRPCPool e i s p).initSize ≤ (NewGRPCPool e i s p).idleSize ∧
    (NewGRPCPool e i s p).idleSize ≤ (NewGRPCPool e i s p).peakSize ∧
    i ≤ (NewGRPCPool e i s p).initSize ∧
    s ≤ (NewGRPCPool e i s p).idleSize ∧
    p ≤ (NewGRPCPool e i s p).peakSize ∧
    (NewGRPCPool e i s p).used = 0 ∧
    (NewGRPCPool e i s p).idle = 0 ∧
    (NewGRPCPool e i s p).clients = [] ∧
    (NewGRPCPool e i s p).clientsCap = (NewGRPCPool e i s p).peakSize :=
  newPool_fields e i s p

/-- Claim C5: whenever Get finds the idle queue empty, is within the
peakSize ceiling, and the dial fails, it returns a nil connection with the
failure classified as CONN_UNAVAILABLE for an Unavailable status,
CONN_DEADLINE_EXCEEDED for a DeadlineExceeded status, and GRPC_ERROR
otherwise, with a non-nil error, and the used counter is restored to its
value before the call. -/
theorem get_dial_failure_classifies_and_releases (pool : GRPCPool) (c : StatusCode) (now : Int)
    (hempty : pool.clients = []) (hpeak : pool.used + 1 ≤ pool.peakSize) :
    (pool.Get (DialResult.fail c) now).conn = none ∧
    (pool.Get (DialResult.fail c) now).hasError = true ∧
    (pool.Get (DialResult.fail c) now).pool.used = pool.used ∧
    (pool.Get (DialResult.fail c) now).errcode =
      (if c = StatusCode.unavailable then CONN_UNAVAILABLE
       else if c = StatusCode.deadlineExceeded then CONN_DEADLINE_EXCEEDED
       else GRPC_ERROR) := by
  have hng : ¬ (pool.used + 1 > pool.peakSize) := by omega
  unfold GRPCPool.Get GRPCPool.get
  simp [hempty, hng]

theorem get_dial_failure_witness :
    (NewGRPCPool "ep" 1 1 1).clients = [] ∧
    (NewGRPCPool "ep" 1 1 1).used + 1 ≤ (NewGRPCPool "ep" 1 1 1).peakSize ∧
    (((NewGRPCPool "ep" 1 1 1).Get (DialResult.fail StatusCode.unavailable) 0).conn = none ∧
     ((NewGRPCPool "ep" 1 1 1).Get (DialResult.fail StatusCode.unavailable) 0).hasError = true ∧
     ((NewGRPCPool "ep" 1 1 1).Get (DialResult.fail StatusCode.unavailable) 0).pool.used =
       (NewGRPCPool "ep" 1 1 1).used ∧
     ((NewGRPCPool "ep" 1 1 1).Get (DialResult.fail StatusCode.unavailable) 0).errcode =
       (if StatusCode.unavailable = StatusCode.unavailable then CONN_UNAVAILABLE
        else if StatusCode.unavailable = StatusCode.deadlineExceeded then CONN_DEADLINE_EXCEEDED
        else GRPC_ERROR)) :=
  ⟨rfl, by decide,
   get_dial_failure_classifies_and_releases (NewGRPCPool "ep" 1 1 1) StatusCode.unavailable 0
     rfl (by decide)⟩

/-- Claim C7: on an otherwise-idle open pool, a Get immediately following a
Put of the same non-closed connection returns that same connection (its
last-used stamp refreshed by the Put) with SUCCESS and performs no dial. -/
theorem put_then_get_roundtrip (pool : GRPCPool) (conn : GRPCConn) (d : DialResult)
    (now now2 : Int)
    (hopen : pool.closed = false) (hconn : conn.closed = false)
    (hempty : pool.clients = []) (hidle : pool.idle = 0)
    (hinit : 1 ≤ pool.initSize) (hcap : 1 ≤ pool.clientsCap) :
    (pool.Put conn now).errcode = SUCCESS ∧
    ((pool.Put conn now).pool.Get d now2).conn = some { conn with utime := now } ∧
    ((pool.Put conn now).pool.Get d now2).errcode = SUCCESS ∧
    ((pool.Put conn now).pool.Get d now2).dialed = false := by
  have h1 : ¬ (pool.initSize < 1) := by omega
  have h2 : (0 : Int) < pool.clientsCap := by omega
  unfold GRPCPool.Put GRPCPool.put GRPCPool.Get GRPCPool.get GRPCConn.IsClosed
  simp [hopen, hconn, hempty, hidle, h1, h2]

theorem put_then_get_roundtrip_witness :
    (NewGRPCPool "ep" 1 1 1).closed = false ∧
    (⟨"ep", false, 42, 0⟩ : GRPCConn).closed = false ∧
    (NewGRPCPool "ep" 1 1 1).clients = [] ∧
    (NewGRPCPool "ep" 1 1 1).idle = 0 ∧
    1 ≤ (NewGRPCPool "ep" 1 1 1).initSize ∧
    1 ≤ (NewGRPCPool "ep" 1 1 1).clientsCap ∧
    (((NewGRPCPool "ep" 1 1 1).Put ⟨"ep", false, 42, 0⟩ 5).errcode = SUCCESS ∧
     (((NewGRPCPool "ep" 1 1 1).Put ⟨"ep", false, 42, 0⟩ 5).pool.Get (DialResult.ok 9) 6).conn =
       some { (⟨"ep", false, 42, 0⟩ : GRPCConn) with utime := 5 } ∧
     (((NewGRPCPool "ep" 1 1 1).Put ⟨"ep", false, 42, 0⟩ 5).pool.Get (DialResult.ok 9) 6).errcode =
       SUCCESS ∧
     (((NewGRPCPool "ep" 1 1 1).Put ⟨"ep", false, 42, 0⟩ 5).pool.Get (DialResult.ok 9) 6).dialed =
       false) :=
  ⟨rfl, rfl, rfl, rfl, by decide, by decide,
   put_then_get_roundtrip (NewGRPCPool "ep" 1 1 1) ⟨"ep", false, 42, 0⟩ (DialResult.ok 9) 5 6
     rfl rfl rfl rfl (by decide) (by decide)⟩

/-- Claim C10: for every public Get on a pool that has not been closed, the
returned connection is non-nil iff the error code is SUCCESS, and iff the
returned error is nil; every failure path returns a nil connection.  The
internal get with doNotNew = true does not satisfy this: on an empty queue
it returns a nil connection together with SUCCESS. -/
theorem get_success_iff_conn (pool : GRPCPool) (d d' : DialResult) (now now' : Int)
    (hopen : pool.closed = false) :
    ((pool.Get d now).conn.isSome ↔ (pool.Get d now).errcode = SUCCESS) ∧
    ((pool.Get d now).conn.isSome ↔ (pool.Get d now).hasError = false) ∧
    ((NewGRPCPool "ep" 1 1 1).get true d' now').conn = none ∧
    ((NewGRPCPool "ep" 1 1 1).get true d' now').errcode = SUCCESS := by
  have hiff : ∀ P : Prop, ∀ i1 i2 : Prop, (P ↔ i1) → (P ↔ i2) → (P ↔ i1) ∧ (P ↔ i2) :=
    fun _ _ _ a b => ⟨a, b⟩
  refine ⟨?_, ?_, ?_, ?_⟩
  case refine_3 => cases d' <;> simp [NewGRPCPool, GRPCPool.get]
  case refine_4 => cases d' <;> simp [NewGRPCPool, GRPCPool.get]
  all_goals
    unfold GRPCPool.Get GRPCPool.get
    cases hc : pool.clients with
    | cons a l => simp [hc]
    | nil =>
      cases d with
      | ok h =>
        simp only [hc]
        split_ifs <;>
          simp_all [SUCCESS, POOL_EMPTY, CONN_UNAVAILABLE, CONN_DEADLINE_EXCEEDED, GRPC_ERROR]
      | fail c =>
        simp only [hc]
        split_ifs <;>
          simp_all [SUCCESS, POOL_EMPTY, CONN_UNAVAILABLE, CONN_DEADLINE_EXCEEDED, GRPC_ERROR]

theorem get_success_iff_conn_witness :
    (NewGRPCPool "ep" 1 1 1).closed = false ∧
    ((((NewGRPCPool "ep" 1 1 1).Get (DialResult.ok 3) 0).conn.isSome ↔
        ((NewGRPCPool "ep" 1 1 1).Get (DialResult.ok 3) 0).errcode = SUCCESS) ∧
     (((NewGRPCPool "ep" 1 1 1).Get (DialResult.ok 3) 0).conn.isSome ↔
        ((NewGRPCPool "ep" 1 1 1).Get (DialResult.ok 3) 0).hasError = false) ∧
     ((NewGRPCPool "ep" 1 1 1).get true (DialResult.ok 0) 0).conn = none ∧
     ((NewGRPCPool "ep" 1 1 1).get true (DialResult.ok 0) 0).errcode = SUCCESS) :=
  ⟨rfl, get_success_iff_conn (NewGRPCPool "ep" 1 1 1) (DialResult.ok 3) (DialResult.ok 0) 0 0 rfl⟩

/-- Claim C6 counterexample: in the legacy variant of src/unnamed/part_000,
a Put of a connection flagged in-pool returns CONN_INPOOL without touching
the used counter (here it stays 5 instead of dropping to 4), refuting the
claim that every Put outcome decrements used by exactly one. -/
theorem put_decrements_used_counterexample :
    (V1.GRPCPool.Put ⟨"ep", 4, 5, [], 4⟩ ⟨"ep", false, true, 0⟩).errcode = V1.CONN_INPOOL ∧
    (V1.GRPCPool.Put ⟨"ep", 4, 5, [], 4⟩ ⟨"ep", false, true, 0⟩).pool.used = 5 ∧
    ¬ (V1.GRPCPool.Put ⟨"ep", 4, 5, [], 4⟩ ⟨"ep", false, true, 0⟩).pool.used = 5 - 1 := by
  refine ⟨rfl, rfl, by decide⟩

/-- Claim C6 (amended): in src/grpcpool.go every call to put decrements the
used counter by exactly one regardless of outcome; in the legacy variant of
src/unnamed/part_000, Put decrements used by exactly one on every outcome
except ConnInPool, where it returns with used unchanged. -/
theorem put_decrements_used (pool : GRPCPool) (conn : GRPCConn) (dnt : Bool) (now : Int)
    (vp : V1.GRPCPool) (vc : V1.GRPCConn) :
    (pool.put conn dnt now).pool.used = pool.used - 1 ∧
    (vc.inpool = false → (V1.GRPCPool.Put vp vc).pool.used = vp.used - 1) ∧
    (vc.inpool = true → (V1.GRPCPool.Put vp vc).pool.used = vp.used) := by
  refine ⟨?_, ?_, ?_⟩
  · simp only [GRPCPool.put]
    split_ifs <;> simp
  · intro hv
    simp only [V1.GRPCPool.Put, hv]
    split_ifs <;> simp_all
  · intro hv
    simp [V1.GRPCPool.Put, hv]

theorem put_decrements_used_witness :
    ((NewGRPCPool "ep" 1 1 1).put ⟨"ep", false, 0, 0⟩ false 0).pool.used =
      (NewGRPCPool "ep" 1 1 1).used - 1 ∧
    (V1.GRPCPool.Put ⟨"ep", 4, 5, [], 4⟩ ⟨"ep", false, false, 0⟩).pool.used = (5 : Int) - 1 ∧
    (V1.GRPCPool.Put ⟨"ep", 4, 5, [], 4⟩ ⟨"ep", false, true, 0⟩).pool.used = (5 : Int) :=
  ⟨(put_decrements_used (NewGRPCPool "ep" 1 1 1) ⟨"ep", false, 0, 0⟩ false 0
      ⟨"ep", 4, 5, [], 4⟩ ⟨"ep", false, false, 0⟩).1,
   (put_decrements_used (NewGRPCPool "ep" 1 1 1) ⟨"ep", false, 0, 0⟩ false 0
      ⟨"ep", 4, 5, [], 4⟩ ⟨"ep", false, false, 0⟩).2.1 rfl,
   (put_decrements_used (NewGRPCPool "ep" 1 1 1) ⟨"ep", false, 0, 0⟩ false 0
      ⟨"ep", 4, 5, [], 4⟩ ⟨"ep", false, true, 0⟩).2.2 rfl⟩

/-- Claim C4 counterexample: Close's drain closes the queued connections but
never decrements the idle counter, so on a pool holding one idle connection
GetIdle reads 1, not 0, after Close. -/
theorem put_after_close_counterexample :
    (GRPCPool.Close
        ⟨"ep", 1, 1, 1, 0, 1, 10, 2, false, 0, [⟨"ep", false, 7, 0⟩], 1⟩).GetIdle ≠ 0 := by
  decide

/-- Claim C4 (amended): after Close of an open pool, every subsequent Put
closes the connection and returns SUCCESS without enqueuing it; Close
empties the idle queue but leaves the used and idle counters unchanged, so
GetUsed and GetIdle keep their pre-Close values rather than being reset by
the drain. -/
theorem put_after_close (pool : GRPCPool) (conn : GRPCConn) (dnt : Bool) (now : Int)
    (hopen : pool.closed = false) :
    pool.Close.closed = true ∧
    pool.Close.clients = [] ∧
    pool.Close.GetUsed = pool.used ∧
    pool.Close.GetIdle = pool.idle ∧
    (pool.Close.put conn dnt now).errcode = SUCCESS ∧
    (pool.Close.put conn dnt now).conn.closed = true ∧
    (pool.Close.put conn dnt now).pool.clients = [] ∧
    (pool.Close.put conn dnt now).pool.idle = pool.idle := by
  unfold GRPCPool.Close GRPCPool.put GRPCPool.GetUsed GRPCPool.GetIdle GRPCConn.Close
  cases hcc : conn.closed <;> simp [hopen, hcc]

theorem put_after_close_witness :
    (NewGRPCPool "ep" 1 2 3).closed = false ∧
    ((NewGRPCPool "ep" 1 2 3).Close.closed = true ∧
     (NewGRPCPool "ep" 1 2 3).Close.clients = [] ∧
     (NewGRPCPool "ep" 1 2 3).Close.GetUsed = (NewGRPCPool "ep" 1 2 3).used ∧
     (NewGRPCPool "ep" 1 2 3).Close.GetIdle = (NewGRPCPool "ep" 1 2 3).idle ∧
     ((NewGRPCPool "ep" 1 2 3).Close.put ⟨"ep", false, 7, 0⟩ false 9).errcode = SUCCESS ∧
     ((NewGRPCPool "ep" 1 2 3).Close.put ⟨"ep", false, 7, 0⟩ false 9).conn.closed = true ∧
     ((NewGRPCPool "ep" 1 2 3).Close.put ⟨"ep", false, 7, 0⟩ false 9).pool.clients = [] ∧
     ((NewGRPCPool "ep" 1 2 3).Close.put ⟨"ep", false, 7, 0⟩ false 9).pool.idle =
       (NewGRPCPool "ep" 1 2 3).idle) :=
  ⟨rfl, put_after_close (NewGRPCPool "ep" 1 2 3) ⟨"ep", false, 7, 0⟩ false 9 rfl⟩

/-- Claim C3 evidence of the code bug: get never consults the closed flag
and the POOL_CLOSED code is never produced; after Close of an open pool, a
Get whose dial succeeds invokes the dialer and returns a fresh connection
with SUCCESS, instead of failing with POOL_CLOSED as the claim
requires. -/
theorem get_after_close_dials (pool : GRPCPool) (h : Nat) (now : Int)
    (hopen : pool.closed = false) (hpeak : pool.used + 1 ≤ pool.peakSize) :
    (pool.Close.Get (DialResult.ok h) now).conn =
      some { endpoint := pool.endpoint, closed := false, client := h, utime := now } ∧
    (pool.Close.Get (DialResult.ok h) now).errcode = SUCCESS ∧
    (pool.Close.Get (DialResult.ok h) now).errcode ≠ POOL_CLOSED ∧
    (pool.Close.Get (DialResult.ok h) now).dialed = true := by
  have hng : ¬ (pool.used + 1 > pool.peakSize) := by omega
  unfold GRPCPool.Close GRPCPool.Get GRPCPool.get
  simp [hopen, hng, SUCCESS, POOL_CLOSED]

theorem get_after_close_dials_witness :
    (NewGRPCPool "ep" 1 1 1).closed = false ∧
    (NewGRPCPool "ep" 1 1 1).used + 1 ≤ (NewGRPCPool "ep" 1 1 1).peakSize ∧
    (((NewGRPCPool "ep" 1 1 1).Close.Get (DialResult.ok 11) 9).conn =
       some { endpoint := (NewGRPCPool "ep" 1 1 1).endpoint, closed := false, client := 11,
              utime := 9 } ∧
     ((NewGRPCPool "ep" 1 1 1).Close.Get (DialResult.ok 11) 9).errcode = SUCCESS ∧
     ((NewGRPCPool "ep" 1 1 1).Close.Get (DialResult.ok 11) 9).errcode ≠ POOL_CLOSED ∧
     ((NewGRPCPool "ep" 1 1 1).Close.Get (DialResult.ok 11) 9).dialed = true) :=
  ⟨rfl, by decide,
   get_after_close_dials (NewGRPCPool "ep" 1 1 1) 11 9 rfl (by decide)⟩

theorem iterGetOk_empty_spec (h : Nat) (now : Int) :
    ∀ (n : Nat) (pool : GRPCPool), pool.clients = [] →
      pool.used + (n : Int) ≤ pool.peakSize →
      getsOkN h now pool n = true ∧
      (iterGetOk h now pool n).used = pool.used + (n : Int) ∧
      (iterGetOk h now pool n).clients = [] ∧
      (iterGetOk h now pool n).peakSize = pool.peakSize := by
  intro n
  induction n with
  | zero =>
    intro pool hempty hle
    simp [getsOkN, iterGetOk, hempty]
  | succ n ih =>
    intro pool hempty hle
    have hng : ¬ (pool.used + 1 > pool.peakSize) := by omega
    have hr : pool.Get (DialResult.ok h) now =
        { pool := { pool with accessTime := now, used := pool.used + 1 }
          conn := some { endpoint := pool.endpoint, closed := false, client := h, utime := now }
          errcode := SUCCESS, hasError := false, dialed := true } := by
      unfold GRPCPool.Get GRPCPool.get
      simp [hempty, hng]
    obtain ⟨g1, g2, g3, g4⟩ :=
      ih { pool with accessTime := now, used := pool.used + 1 }
        (by simpa using hempty) (by simp; omega)
    refine ⟨?_, ?_, ?_, ?_⟩
    · simp [getsOkN, hr, g1]
    · simp only [iterGetOk, hr]
      simp only at g2
      rw [g2]
      push_cast
      ring
    · simpa [iterGetOk, hr] using g3
    · simpa [iterGetOk, hr] using g4

/-- Claim C1: starting from a freshly created pool (empty idle queue), with
every dial succeeding, each of the first peakSize sequential Get calls (no
intervening Put) returns a non-nil connection with SUCCESS via a new dial,
and the (peakSize+1)-th call returns a nil connection with POOL_EMPTY
without dialing, leaving the used counter back at peakSize. -/
theorem get_exhausts_at_peakSize (e : String) (i s p : Int) (h : Nat) (now : Int) :
    getsOkN h now (NewGRPCPool e i s p) (NewGRPCPool e i s p).peakSize.toNat = true ∧
    ((iterGetOk h now (NewGRPCPool e i s p) (NewGRPCPool e i s p).peakSize.toNat).Get
        (DialResult.ok h) now).conn = none ∧
    ((iterGetOk h now (NewGRPCPool e i s p) (NewGRPCPool e i s p).peakSize.toNat).Get
        (DialResult.ok h) now).errcode = POOL_EMPTY ∧
    ((iterGetOk h now (NewGRPCPool e i s p) (NewGRPCPool e i s p).peakSize.toNat).Get
        (DialResult.ok h) now).hasError = true ∧
    ((iterGetOk h now (NewGRPCPool e i s p) (NewGRPCPool e i s p).peakSize.toNat).Get
        (DialResult.ok h) now).dialed = false ∧
    ((iterGetOk h now (NewGRPCPool e i s p) (NewGRPCPool e i s p).peakSize.toNat).Get
        (DialResult.ok h) now).pool.used = (NewGRPCPool e i s p).peakSize := by
  obtain ⟨hinit, h12, h23, _, _, _, hused, hidle, hclients, hcap⟩ := newPool_fields e i s p
  have hpeak1 : 1 ≤ (NewGRPCPool e i s p).peakSize := by omega
  have hcast : (((NewGRPCPool e i s p).peakSize.toNat : Nat) : Int) =
      (NewGRPCPool e i s p).peakSize := Int.toNat_of_nonneg (by omega)
  obtain ⟨g1, g2, g3, g4⟩ :=
    iterGetOk_empty_spec h now (NewGRPCPool e i s p).peakSize.toNat
      (NewGRPCPool e i s p) hclients (by rw [hcast]; omega)
  have hu1 : (iterGetOk h now (NewGRPCPool e i s p)
      (NewGRPCPool e i s p).peakSize.toNat).used = (NewGRPCPool e i s p).peakSize := by
    rw [g2, hused, hcast]; ring
  have hgt : (iterGetOk h now (NewGRPCPool e i s p)
        (NewGRPCPool e i s p).peakSize.toNat).used + 1 >
      (iterGetOk h now (NewGRPCPool e i s p)
        (NewGRPCPool e i s p).peakSize.toNat).peakSize := by
    rw [hu1, g4]; omega
  have hgt2 : (iterGetOk h now (NewGRPCPool e i s p)
        (NewGRPCPool e i s p).peakSize.toNat).peakSize <
      (NewGRPCPool e i s p).peakSize + 1 := by
    rw [g4]; omega
  refine ⟨g1, ?_, ?_, ?_, ?_, ?_⟩ <;>
    unfold GRPCPool.Get GRPCPool.get <;> simp [g3, hgt, hu1, hgt2]

/-- Claim C2: for a Put of a non-closed connection on an open pool whose
idle counter matches the queue length (with clamped tiers, channel capacity
equal to peakSize, and peakTimeout at most idleTimeout as the two-tier
design requires): if the incremented idle count is at or below initSize the
connection is always re-enqueued regardless of elapsed time; if it is above
initSize but at or below idleSize, the connection is evicted (closed, idle
decremented back, POOL_IDLE) exactly when its time since last use exceeds
idleTimeout seconds; and if it is above idleSize, it is evicted exactly
when its time since last use exceeds the shorter peakTimeout seconds. -/
theorem put_eviction_policy (pool : GRPCPool) (conn : GRPCConn) (now : Int)
    (hopen : pool.closed = false) (hconn : conn.closed = false)
    (hlen : (pool.clients.length : Int) = pool.idle)
    (hcap : pool.clientsCap = pool.peakSize)
    (hinit : 1 ≤ pool.initSize) (h12 : pool.initSize ≤ pool.idleSize)
    (h23 : pool.idleSize ≤ pool.peakSize)
    (hpt : 1 ≤ pool.peakTimeout) (hpi : pool.peakTimeout ≤ pool.idleTimeout) :
    (pool.idle + 1 ≤ pool.initSize →
      (pool.Put conn now).errcode = SUCCESS ∧
      (pool.Put conn now).pool.clients = pool.clients ++ [{ conn with utime := now }] ∧
      (pool.Put conn now).pool.idle = pool.idle + 1) ∧
    (pool.initSize < pool.idle + 1 → pool.idle + 1 ≤ pool.idleSize →
      ((pool.Put conn now).errcode = POOL_IDLE ↔ now - conn.utime > pool.idleTimeout)) ∧
    (pool.idleSize < pool.idle + 1 →
      ((pool.Put conn now).errcode = POOL_IDLE ↔ now - conn.utime > pool.peakTimeout)) ∧
    ((pool.Put conn now).errcode = POOL_IDLE →
      (pool.Put conn now).pool.idle = pool.idle ∧
      (pool.Put conn now).pool.clients = pool.clients ∧
      (pool.Put conn now).conn.closed = true) := by
  unfold GRPCPool.Put GRPCPool.put GRPCConn.IsClosed GRPCConn.Close
  simp only [hopen, hconn]
  refine ⟨?_, ?_, ?_, ?_⟩
  · intro htier
    have hg1 : ¬ (pool.idle + 1 > pool.initSize ∧ now > conn.utime ∧
        now - conn.utime > pool.idleTimeout) := by
      intro hx; omega
    have hg2 : ¬ (pool.idle + 1 > pool.initSize ∧ now > conn.utime ∧
        pool.idle + 1 > pool.idleSize ∧ now - conn.utime > pool.peakTimeout) := by
      intro hx; omega
    have hg3 : (pool.clients.length : Int) < pool.clientsCap := by omega
    simp [hg1, hg2, hg3, SUCCESS, POOL_IDLE]
  · intro ht1 ht2
    constructor
    · intro hcode
      by_contra hlt
      have hg1 : ¬ (pool.idle + 1 > pool.initSize ∧ now > conn.utime ∧
          now - conn.utime > pool.idleTimeout) := by
        intro hx; omega
      have hg2 : ¬ (pool.idle + 1 > pool.initSize ∧ now > conn.utime ∧
          pool.idle + 1 > pool.idleSize ∧ now - conn.utime > pool.peakTimeout) := by
        intro hx; omega
      simp only [hg1, hg2, if_false] at hcode
      split_ifs at hcode <;> simp_all [SUCCESS, POOL_IDLE, POOL_FULL]
    · intro hlt
      have hg1 : pool.idle + 1 > pool.initSize ∧ now > conn.utime ∧
          now - conn.utime > pool.idleTimeout := by omega
      simp [hg1]
  · intro ht1
    constructor
    · intro hcode
      by_contra hlt
      have hg1 : ¬ (pool.idle + 1 > pool.initSize ∧ now > conn.utime ∧
          now - conn.utime > pool.idleTimeout) := by
        intro hx; omega
      have hg2 : ¬ (pool.idle + 1 > pool.initSize ∧ now > conn.utime ∧
          pool.idle + 1 > pool.idleSize ∧ now - conn.utime > pool.peakTimeout) := by
        intro hx; omega
      simp only [hg1, hg2, if_false] at hcode
      split_ifs at hcode <;> simp_all [SUCCESS, POOL_IDLE, POOL_FULL]
    · intro hlt
      by_cases hold : now - conn.utime > pool.idleTimeout
      · have hg1 : pool.idle + 1 > pool.initSize ∧ now > conn.utime ∧
            now - conn.utime > pool.idleTimeout := by omega
        simp [hg1]
      · have hg1 : ¬ (pool.idle + 1 > pool.initSize ∧ now > conn.utime ∧
            now - conn.utime > pool.idleTimeout) := by
          intro hx; omega
        have hg2 : pool.idle + 1 > pool.initSize ∧ now > conn.utime ∧
            pool.idle + 1 > pool.idleSize ∧ now - conn.utime > pool.peakTimeout := by omega
        simp [hg1, hg2]
  · intro hcode
    split_ifs at hcode ⊢ <;>
      simp_all [SUCCESS, POOL_IDLE, POOL_FULL, CONN_CLOSED]

theorem put_eviction_policy_witness :
    (⟨"ep", 3, 2, 1, 1, 0, 10, 2, false, 0, [], 3⟩ : GRPCPool).closed = false ∧
    (⟨"ep", false, 7, 0⟩ : GRPCConn).closed = false ∧
    (((⟨"ep", 3, 2, 1, 1, 0, 10, 2, false, 0, [], 3⟩ : GRPCPool).clients.length : Int) =
      (⟨"ep", 3, 2, 1, 1, 0, 10, 2, false, 0, [], 3⟩ : GRPCPool).idle) ∧
    (⟨"ep", 3, 2, 1, 1, 0, 10, 2, false, 0, [], 3⟩ : GRPCPool).clientsCap =
      (⟨"ep", 3, 2, 1, 1, 0, 10, 2, false, 0, [], 3⟩ : GRPCPool).peakSize ∧
    1 ≤ (⟨"ep", 3, 2, 1, 1, 0, 10, 2, false, 0, [], 3⟩ : GRPCPool).initSize ∧
    (⟨"ep", 3, 2, 1, 1, 0, 10, 2, false, 0, [], 3⟩ : GRPCPool).initSize ≤
      (⟨"ep", 3, 2, 1, 1, 0, 10, 2, false, 0, [], 3⟩ : GRPCPool).idleSize ∧
    (⟨"ep", 3, 2, 1, 1, 0, 10, 2, false, 0, [], 3⟩ : GRPCPool).idleSize ≤
      (⟨"ep", 3, 2, 1, 1, 0, 10, 2, false, 0, [], 3⟩ : GRPCPool).peakSize ∧
    1 ≤ (⟨"ep", 3, 2, 1, 1, 0, 10, 2, false, 0, [], 3⟩ : GRPCPool).peakTimeout ∧
    (⟨"ep", 3, 2, 1, 1, 0, 10, 2, false, 0, [], 3⟩ : GRPCPool).peakTimeout ≤
      (⟨"ep", 3, 2, 1, 1, 0, 10, 2, false, 0, [], 3⟩ : GRPCPool).idleTimeout ∧
    (((⟨"ep", 3, 2, 1, 1, 0, 10, 2, false, 0, [], 3⟩ : GRPCPool).idle + 1 ≤
        (⟨"ep", 3, 2, 1, 1, 0, 10, 2, false, 0, [], 3⟩ : GRPCPool).initSize →
      ((⟨"ep", 3, 2, 1, 1, 0, 10, 2, false, 0, [], 3⟩ : GRPCPool).Put
          ⟨"ep", false, 7, 0⟩ 100).errcode = SUCCESS ∧
      ((⟨"ep", 3, 2, 1, 1, 0, 10, 2, false, 0, [], 3⟩ : GRPCPool).Put
          ⟨"ep", false, 7, 0⟩ 100).pool.clients =
        (⟨"ep", 3, 2, 1, 1, 0, 10, 2, false, 0, [], 3⟩ : GRPCPool).clients ++
          [{ (⟨"ep", false, 7, 0⟩ : GRPCConn) with utime := 100 }] ∧
      ((⟨"ep", 3, 2, 1, 1, 0, 10, 2, false, 0, [], 3⟩ : GRPCPool).Put
          ⟨"ep", false, 7, 0⟩ 100).pool.idle =
        (⟨"ep", 3, 2, 1, 1, 0, 10, 2, false, 0, [], 3⟩ : GRPCPool).idle + 1) ∧
     ((⟨"ep", 3, 2, 1, 1, 0, 10, 2, false, 0, [], 3⟩ : GRPCPool).initSize <
        (⟨"ep", 3, 2, 1, 1, 0, 10, 2, false, 0, [], 3⟩ : GRPCPool).idle + 1 →
      (⟨"ep", 3, 2, 1, 1, 0, 10, 2, false, 0, [], 3⟩ : GRPCPool).idle + 1 ≤
        (⟨"ep", 3, 2, 1, 1, 0, 10, 2, false, 0, [], 3⟩ : GRPCPool).idleSize →
      (((⟨"ep", 3, 2, 1, 1, 0, 10, 2, false, 0, [], 3⟩ : GRPCPool).Put
          ⟨"ep", false, 7, 0⟩ 100).errcode = POOL_IDLE ↔
        100 - (⟨"ep", false, 7, 0⟩ : GRPCConn).utime >
          (⟨"ep", 3, 2, 1, 1, 0, 10, 2, false, 0, [], 3⟩ : GRPCPool).idleTimeout)) ∧
     ((⟨"ep", 3, 2, 1, 1, 0, 10, 2, false, 0, [], 3⟩ : GRPCPool).idleSize <
        (⟨"ep", 3, 2, 1, 1, 0, 10, 2, false, 0, [], 3⟩ : GRPCPool).idle + 1 →
      (((⟨"ep", 3, 2, 1, 1, 0, 10, 2, false, 0, [], 3⟩ : GRPCPool).Put
          ⟨"ep", false, 7, 0⟩ 100).errcode = POOL_IDLE ↔
        100 - (⟨"ep", false, 7, 0⟩ : GRPCConn).utime >
          (⟨"ep", 3, 2, 1, 1, 0, 10, 2, false, 0, [], 3⟩ : GRPCPool).peakTimeout)) ∧
     (((⟨"ep", 3, 2, 1, 1, 0, 10, 2, false, 0, [], 3⟩ : GRPCPool).Put
          ⟨"ep", false, 7, 0⟩ 100).errcode = POOL_IDLE →
      ((⟨"ep", 3, 2, 1, 1, 0, 10, 2, false, 0, [], 3⟩ : GRPCPool).Put
          ⟨"ep", false, 7, 0⟩ 100).pool.idle =
        (⟨"ep", 3, 2, 1, 1, 0, 10, 2, false, 0, [], 3⟩ : GRPCPool).idle ∧
      ((⟨"ep", 3, 2, 1, 1, 0, 10, 2, false, 0, [], 3⟩ : GRPCPool).Put
          ⟨"ep", false, 7, 0⟩ 100).pool.clients =
        (⟨"ep", 3, 2, 1, 1, 0, 10, 2, false, 0, [], 3⟩ : GRPCPool).clients ∧
      ((⟨"ep", 3, 2, 1, 1, 0, 10, 2, false, 0, [], 3⟩ : GRPCPool).Put
          ⟨"ep", false, 7, 0⟩ 100).conn.closed = true)) :=
  ⟨rfl, rfl, by decide, by decide, by decide, by decide, by decide, by decide, by decide,
   put_eviction_policy ⟨"ep", 3, 2, 1, 1, 0, 10, 2, false, 0, [], 3⟩ ⟨"ep", false, 7, 0⟩ 100
     rfl rfl (by decide) (by decide) (by decide) (by decide) (by decide) (by decide) (by decide)⟩

theorem get_doNotNew_never_dials (pool : GRPCPool) (d : DialResult) (now : Int) :
    (pool.get true d now).dialed = false := by
  unfold GRPCPool.get
  cases hc : pool.clients <;> simp [hc]

theorem burstLoop_dials_zero (now : Int) :
    ∀ (k : Nat) (pool : GRPCPool), (burstLoop pool now k).2 = 0 := by
  intro k
  induction k with
  | zero => intro pool; simp [burstLoop]
  | succ k ih =>
    intro pool
    unfold burstLoop
    cases hc : (pool.get true (DialResult.ok 0) now).conn with
    | none => simp [hc, get_doNotNew_never_dials]
    | some c =>
      by_cases hp :
          ((pool.get true (DialResult.ok 0) now).pool.put c true now).errcode = POOL_IDLE
      · simp [hc, hp, get_doNotNew_never_dials, ih]
      · simp [hc, hp, get_doNotNew_never_dials]

/-- Claim C9: the background reclamation loop never dials: the internal get
with doNotNew = true never invokes the dialer and returns a nil connection
(with SUCCESS) when the idle queue is empty, and a whole burst performs
zero dials; a tick runs its burst only when the idle count exceeds initSize
and the used count is less than the idle count (otherwise the state is left
untouched), the burst being bounded by the idle-count snapshot; and a burst
stops as soon as a get yields no connection or a put does not return
POOL_IDLE. -/
theorem reclamation_never_dials (pool : GRPCPool) (d : DialResult) (now : Int) (k : Nat) :
    (pool.get true d now).dialed = false ∧
    (pool.clients = [] →
      (pool.get true d now).conn = none ∧ (pool.get true d now).errcode = SUCCESS) ∧
    (burstLoop pool now k).2 = 0 ∧
    (¬ (pool.idle > pool.initSize ∧ pool.used < pool.idle) →
      releaseIdleTick pool now = pool) ∧
    (pool.closed = false → pool.idle > pool.initSize → pool.used < pool.idle →
      releaseIdleTick pool now = (burstLoop pool now pool.idle.toNat).1) ∧
    (pool.clients = [] →
      burstLoop pool now (k + 1) = ((pool.get true (DialResult.ok 0) now).pool, 0)) ∧
    (∀ c, (pool.get true (DialResult.ok 0) now).conn = some c →
      ((pool.get true (DialResult.ok 0) now).pool.put c true now).errcode ≠ POOL_IDLE →
      burstLoop pool now (k + 1) =
        (((pool.get true (DialResult.ok 0) now).pool.put c true now).pool, 0)) := by
  refine ⟨get_doNotNew_never_dials pool d now, ?_, burstLoop_dials_zero now k pool, ?_, ?_, ?_, ?_⟩
  · intro hempty
    unfold GRPCPool.get
    simp [hempty]
  · intro hgate
    by_cases hcl : pool.closed
    · simp [releaseIdleTick, hcl]
    · simp [releaseIdleTick, hcl, hgate]
  · intro hopen hidle hused
    unfold releaseIdleTick
    simp [hopen, hidle, hused]
  · intro hempty
    have hconn : (pool.get true (DialResult.ok 0) now).conn = none := by
      unfold GRPCPool.get
      simp [hempty]
    unfold burstLoop
    simp [hconn, get_doNotNew_never_dials]
  · intro c hconn hput
    unfold burstLoop
    simp [hconn, hput, get_doNotNew_never_dials]

theorem reclamation_never_dials_witness :
    ((NewGRPCPool "ep" 1 1 1).get true (DialResult.ok 0) 3).dialed = false ∧
    (((NewGRPCPool "ep" 1 1 1).get true (DialResult.ok 0) 3).conn = none ∧
      ((NewGRPCPool "ep" 1 1 1).get true (DialResult.ok 0) 3).errcode = SUCCESS) ∧
    (burstLoop (NewGRPCPool "ep" 1 1 1) 3 2).2 = 0 ∧
    releaseIdleTick (NewGRPCPool "ep" 1 1 1) 3 = NewGRPCPool "ep" 1 1 1 ∧
    releaseIdleTick
        (⟨"ep", 3, 2, 1, 0, 2, 10, 2, false, 0,
          [⟨"ep", false, 1, 0⟩, ⟨"ep", false, 2, 0⟩], 3⟩ : GRPCPool) 3 =
      (burstLoop
        (⟨"ep", 3, 2, 1, 0, 2, 10, 2, false, 0,
          [⟨"ep", false, 1, 0⟩, ⟨"ep", false, 2, 0⟩], 3⟩ : GRPCPool) 3
        ((⟨"ep", 3, 2, 1, 0, 2, 10, 2, false, 0,
          [⟨"ep", false, 1, 0⟩, ⟨"ep", false, 2, 0⟩], 3⟩ : GRPCPool)).idle.toNat).1 ∧
    burstLoop (NewGRPCPool "ep" 1 1 1) 3 (2 + 1) =
      (((NewGRPCPool "ep" 1 1 1).get true (DialResult.ok 0) 3).pool, 0) ∧
    burstLoop
        (⟨"ep", 3, 2, 1, 0, 2, 10, 2, false, 0,
          [⟨"ep", false, 1, 0⟩, ⟨"ep", false, 2, 0⟩], 3⟩ : GRPCPool) 3 (2 + 1) =
      ((((⟨"ep", 3, 2, 1, 0, 2, 10, 2, false, 0,
            [⟨"ep", false, 1, 0⟩, ⟨"ep", false, 2, 0⟩], 3⟩ : GRPCPool).get true
          (DialResult.ok 0) 3).pool.put ⟨"ep", false, 1, 0⟩ true 3).pool, 0) := by
  have hA := reclamation_never_dials (NewGRPCPool "ep" 1 1 1) (DialResult.ok 0) 3 2
  have hB := reclamation_never_dials
    (⟨"ep", 3, 2, 1, 0, 2, 10, 2, false, 0,
      [⟨"ep", false, 1, 0⟩, ⟨"ep", false, 2, 0⟩], 3⟩ : GRPCPool) (DialResult.ok 0) 3 2
  exact ⟨hA.1, hA.2.1 rfl, hA.2.2.1, hA.2.2.2.1 (by decide),
    hB.2.2.2.2.1 rfl (by decide) (by decide), hA.2.2.2.2.2.1 rfl,
    hB.2.2.2.2.2.2 ⟨"ep", false, 1, 0⟩ rfl (by decide)⟩
